import Mathlib

/-
  Verification development for the opensnoop kprobe tracer
  (src/opensnoop.c, final single-file variant).

  The kernel tracing filesystem is an external collaborator; each of its
  calls is modelled by an outcome bit in `Env` and by its documented effect
  on the observable system state `Sys`.  The program's own functions
  (`enable_event`, `enable_necessary_events`, `cleanup_instance`,
  `cleanup_kprobe`, `cleanup`, `turn_trace_on`, `callback`,
  `read_event_data`, `main`) are translated statement by statement.
-/

namespace OpensnoopModel

/- Constants from the #define block of opensnoop.c. -/

def K_EVENT_SYS : String := "kprobes"

def K_EVENT : String := "getnameprobe"

def K_FILENAME_FIELD : String := "arg1"

def K_PID_FIELD : String := "common_pid"

def PID_SPACING : Int := -7

def PID_HEADER : String := "PID"

def F_HEADER : String := "FILE"

/-- printf star-width semantics: a negative width left-justifies the text in
a field of the width's magnitude, padding with spaces on the right; a
nonnegative width right-justifies, padding on the left. -/
def padWidth (w : Int) (s : String) : String :=
  if w < 0 then s ++ String.mk (List.replicate (w.natAbs - s.length) ' ')
  else String.mk (List.replicate (w.natAbs - s.length) ' ') ++ s

/-- The pid column as printed by printf("%*lld", PID_SPACING, pid). -/
def fmtPid (pid : Nat) : String := padWidth PID_SPACING (toString pid)

/-- One record line as printed by printf("%*lld%s\n", PID_SPACING, pid, filename). -/
def fmtLine (pid : Nat) (filename : String) : String :=
  fmtPid pid ++ filename ++ "\n"

/-- The header row printed by printf("\n%*s%s\n", PID_SPACING, PID_HEADER, F_HEADER). -/
def headerLine : String := "\n" ++ padWidth PID_SPACING PID_HEADER ++ F_HEADER ++ "\n"

/-- The prompt printed before tracing starts. -/
def promptLine : String :=
  "To stop tracing, press CTRL+C\nHit enter when you're ready to start tracing: "

/- ------------------------------------------------------------------ -/
/- Record decoding (the callback registered with tracefs_follow_event) -/
/- ------------------------------------------------------------------ -/

/-- One raw buffer entry as seen by the decode callback:
whether tep_find_any_field finds K_FILENAME_FIELD, the result of
tep_get_field_raw (none = invalid), the result of the common-pid lookup
(none = error), and the text tep leaves in the trace_seq on a pid-lookup
error (dumped to stdout by print_seq). -/
structure EventRec where
  hasField : Bool
  filename : Option String
  pid : Option Nat
  seqMsg : String
deriving DecidableEq, Repr

/-- Result of one callback invocation: the EXIT_FAILURE flag, the stdout
lines produced, the stderr diagnostics produced, and the number of
tep_find_any_field metadata lookups performed. -/
structure CbOut where
  fail : Bool
  out : List String
  errs : List String
  fieldLookups : Nat
deriving DecidableEq, Repr

/-- The callback function of opensnoop.c, statement by statement:
tep_find_any_field is invoked unconditionally first; a missing field or a
null filename each produce one stderr diagnostic and EXIT_FAILURE; a
pid-lookup error dumps the trace_seq to stdout and returns EXIT_FAILURE;
otherwise the formatted line is printed. -/
def callback (x : EventRec) : CbOut :=
  if x.hasField then
    match x.filename with
    | none => { fail := true, out := [], errs := ["invalid filename received"], fieldLookups := 1 }
    | some f =>
      match x.pid with
      | none => { fail := true, out := [x.seqMsg], errs := [], fieldLookups := 1 }
      | some pid => { fail := false, out := [fmtLine pid f], errs := [], fieldLookups := 1 }
  else
    { fail := true,
      out := [],
      errs := ["field " ++ K_FILENAME_FIELD ++ " does not exist for " ++ "getname" ++ " kprobe event"],
      fieldLookups := 1 }

/-- One polling pass: the per-record callback is applied to every buffered
entry (the iterate-raw-events interface delivers each entry to the
registered follower); a single record's failure does not remove the
remaining entries of the pass. Returns (stdout lines, stderr lines). -/
def runPass : List EventRec → List String × List String
  | [] => ([], [])
  | x :: rest =>
    ((callback x).out ++ (runPass rest).1, (callback x).errs ++ (runPass rest).2)

/-- Total tep_find_any_field lookups performed over one pass. -/
def passLookups (recs : List EventRec) : Nat :=
  (recs.map (fun x => (callback x).fieldLookups)).sum

/-- The while (iter_events) polling loop of read_event_data.  `sigAt` is the
number of loop-head checks that still observe the cancellation flag true
(i.e. SIGINT is delivered during pass number sigAt - 1 or its sleep, and
observed at the head check of index sigAt).  `passes` is the finite schedule
of buffer contents, one per pass.  Returns (stdout lines, stderr lines,
number of passes that were started). -/
def runIter : Nat → List (List EventRec) → List String × List String × Nat
  | 0, _ => ([], [], 0)
  | _ + 1, [] => ([], [], 0)
  | n + 1, p :: rest =>
    ((runPass p).1 ++ (runIter n rest).1,
     (runPass p).2 ++ (runIter n rest).2.1,
     (runIter n rest).2.2 + 1)

/-- The state the SIGINT handler touches: the iter_events flag and whether
tracefs_iterate_stop has been requested. -/
structure IterCtl where
  iter_events : Bool
  stop_requested : Bool
deriving DecidableEq, Repr

/-- The stop_iter signal handler: sets the cancellation flag false and issues
the unblock call, nothing else. -/
def stop_iter (_ : IterCtl) : IterCtl :=
  { iter_events := false, stop_requested := true }

/- ------------------------------------------------------------------ -/
/- Kernel-facing operations and the observable system state            -/
/- ------------------------------------------------------------------ -/

/-- Kernel-facing calls issued by the program, in issue order. -/
inductive Action where
  | allocProbe
  | createInstance
  | installProbe
  | disableAll
  | enableEvent (sys ev : String)
  | traceOff
  | traceOn
  | iterate
  | uninstallProbe
  | freeProbe
  | destroyInstance
  | freeInstance
deriving DecidableEq, Repr

/-- Observable state: liveness of the probe descriptor memory and of the
kernel-visible probe, of the instance memory and the kernel-visible
instance, the instance's enabled-event set, its tracing on/off state, the
list of kernel calls issued so far, stdout, and stderr. -/
structure Sys where
  probeMem : Bool
  probeInstalled : Bool
  instMem : Bool
  instKernel : Bool
  enabled : List (String × String)
  tracing : Bool
  log : List Action
  out : List String
  errs : List String
deriving DecidableEq, Repr

def initSys : Sys :=
  { probeMem := false, probeInstalled := false, instMem := false, instKernel := false,
    enabled := [], tracing := false, log := [], out := [], errs := [] }

/-- Outcomes of the external tracefs/tep calls, plus the run schedule.
`initEnabled` is the enabled-event set a freshly created instance starts
with (unknown to the program, hence a parameter). -/
structure Env where
  kretprobe_alloc_ok : Bool
  instance_create_ok : Bool
  dynevent_create_ok : Bool
  event_disable_ok : Bool
  event_enable_ok : Bool
  trace_off1_ok : Bool
  trace_on_ok : Bool
  trace_off2_ok : Bool
  instance_destroy_ok : Bool
  dynevent_destroy_ok : Bool
  tep_ok : Bool
  initEnabled : List (String × String)
  sigAt : Nat
  passes : List (List EventRec)

def logAct (a : Action) (s : Sys) : Sys := { s with log := s.log ++ [a] }

def op_alloc (ok : Bool) (s : Sys) : Sys :=
  { logAct Action.allocProbe s with probeMem := ok }

def op_instance_create (ok : Bool) (init : List (String × String)) (s : Sys) : Sys :=
  { logAct Action.createInstance s with
      instMem := ok, instKernel := ok,
      enabled := if ok then init else s.enabled }

def op_dynevent_create (ok : Bool) (s : Sys) : Sys :=
  { logAct Action.installProbe s with probeInstalled := ok }

def op_event_disable_all (ok : Bool) (s : Sys) : Sys :=
  { logAct Action.disableAll s with enabled := if ok then [] else s.enabled }

def op_event_enable (ok : Bool) (sys ev : String) (s : Sys) : Sys :=
  { logAct (Action.enableEvent sys ev) s with
      enabled := if ok then s.enabled.insert (sys, ev) else s.enabled }

def op_trace_off (ok : Bool) (s : Sys) : Sys :=
  { logAct Action.traceOff s with tracing := if ok then false else s.tracing }

def op_trace_on (ok : Bool) (s : Sys) : Sys :=
  { logAct Action.traceOn s with tracing := if ok then true else s.tracing }

def op_dynevent_destroy (ok : Bool) (s : Sys) : Sys :=
  { logAct Action.uninstallProbe s with
      probeInstalled := if ok then false else s.probeInstalled }

def op_dynevent_free (s : Sys) : Sys :=
  { logAct Action.freeProbe s with probeMem := false }

def op_instance_destroy (ok : Bool) (s : Sys) : Sys :=
  { logAct Action.destroyInstance s with
      instKernel := if ok then false else s.instKernel }

def op_instance_free (s : Sys) : Sys :=
  { logAct Action.freeInstance s with instMem := false }

def eprint (m : String) (s : Sys) : Sys := { s with errs := s.errs ++ [m] }

def pout (m : String) (s : Sys) : Sys := { s with out := s.out ++ [m] }

/-- A run: the current state plus the trajectory of all states so far. -/
structure Run where
  s : Sys
  hist : List Sys
deriving Repr

def initRun : Run := { s := initSys, hist := [initSys] }

def step (f : Sys → Sys) (r : Run) : Run :=
  { s := f r.s, hist := r.hist ++ [f r.s] }

/- ------------------------------------------------------------------ -/
/- The program's functions                                             -/
/- ------------------------------------------------------------------ -/

/-- enable_event of opensnoop.c: tracefs_event_enable, with a diagnostic on
failure; returns the failure flag. -/
def enable_event (ok : Bool) (sys ev : String) (r : Run) : Bool × Run :=
  let r := step (op_event_enable ok sys ev) r
  if ok then (false, r)
  else (true, step (eprint ("events/" ++ sys ++ "/" ++ ev ++ " does not exist")) r)

/-- enable_necessary_events of opensnoop.c: disable every event, then enable
the kprobe event; on disable failure, report and return EXIT_FAILURE without
attempting the enable. -/
def enable_necessary_events (env : Env) (r : Run) : Bool × Run :=
  let r := step (op_event_disable_all env.event_disable_ok) r
  if env.event_disable_ok then
    enable_event env.event_enable_ok K_EVENT_SYS K_EVENT r
  else
    (true, step (eprint "unable to disable events to clean environment") r)

/-- cleanup_instance of opensnoop.c: tracefs_instance_destroy, then
tracefs_instance_free unconditionally, then a diagnostic when the destroy
reported failure; returns the destroy result. -/
def cleanup_instance (ok : Bool) (r : Run) : Bool × Run :=
  let r := step (op_instance_destroy ok) r
  let r := step op_instance_free r
  let r := if ok then r
    else step (eprint "unable to destroy opensnoop tracefs instance") r
  (!ok, r)

/-- cleanup_kprobe of opensnoop.c: tracefs_dynevent_destroy, then
tracefs_dynevent_free unconditionally, then a diagnostic when the destroy
reported failure; returns the destroy result. -/
def cleanup_kprobe (ok : Bool) (r : Run) : Bool × Run :=
  let r := step (op_dynevent_destroy ok) r
  let r := step op_dynevent_free r
  let r := if ok then r
    else step (eprint "unable to destroy getname kprobe dynamic event") r
  (!ok, r)

/-- cleanup of opensnoop.c: always runs cleanup_instance, then always runs
cleanup_kprobe, and returns the logical OR of their failures. -/
def cleanup (env : Env) (r : Run) : Bool × Run :=
  let p1 := cleanup_instance env.instance_destroy_ok r
  let p2 := cleanup_kprobe env.dynevent_destroy_ok p1.2
  (p1.1 || p2.1, p2.2)

/-- turn_trace_on of opensnoop.c: tracefs_trace_off as the buffer-clearing
step; on its failure report and return EXIT_FAILURE without calling
tracefs_trace_on; otherwise tracefs_trace_on, reporting its failure. -/
def turn_trace_on (env : Env) (r : Run) : Bool × Run :=
  let r := step (op_trace_off env.trace_off1_ok) r
  if env.trace_off1_ok then
    let r := step (op_trace_on env.trace_on_ok) r
    if env.trace_on_ok then (false, r)
    else (true, step (eprint "unable to enable tracing") r)
  else
    (true, step (eprint "unable to clear the trace buffer before running") r)

/-- read_event_data of opensnoop.c: create the tep handle (on failure,
report and return with no iteration at all); otherwise run the polling loop
and append its stdout/stderr. -/
def read_event_data (env : Env) (r : Run) : Run :=
  if env.tep_ok then
    let res := runIter env.sigAt env.passes
    step (fun s => { s with out := s.out ++ res.1, errs := s.errs ++ res.2.1,
                            log := s.log ++ [Action.iterate] }) r
  else
    step (eprint "unable to create tep handle for kprobes event system") r

/-- main of opensnoop.c, statement by statement.  Note that the
tracefs_dynevent_create failure branch returns EXIT_FAILURE without any
cleanup call, exactly as in the source. -/
def mainRun (env : Env) : Nat × Run :=
  let r := step (op_alloc env.kretprobe_alloc_ok) initRun
  if env.kretprobe_alloc_ok then
    let r := step (op_instance_create env.instance_create_ok env.initEnabled) r
    if env.instance_create_ok then
      let r := step (op_dynevent_create env.dynevent_create_ok) r
      if env.dynevent_create_ok then
        let en := enable_necessary_events env r
        if en.1 then
          let r := step (eprint "unable to enable only necessary events") en.2
          (1, (cleanup env r).2)
        else
          let r := step (pout promptLine) en.2
          let r := step (pout headerLine) r
          let tt := turn_trace_on env r
          if tt.1 then (1, (cleanup env tt.2).2)
          else
            let r := read_event_data env tt.2
            let r := step (op_trace_off env.trace_off2_ok) r
            if env.trace_off2_ok then
              let cl := cleanup env r
              (if cl.1 then 1 else 0, cl.2)
            else
              let r := step (eprint "unable to disable tracing") r
              (1, (cleanup env r).2)
      else
        (1, step (eprint "unable to create getname kretprobe dynamic event") r)
    else
      let r := step (eprint "unable to instantiate opensnoop tracefs instance") r
      (1, (cleanup_kprobe env.dynevent_destroy_ok r).2)
  else
    (1, step (eprint "unable to create getname kretprobe dynamic event description") r)

def mainExit (env : Env) : Nat := (mainRun env).1

def mainFinal (env : Env) : Sys := (mainRun env).2.s

def mainTrace (env : Env) : List Sys := (mainRun env).2.hist

/- ------------------------------------------------------------------ -/
/- Pointer-level model of the teardown helpers (C calling convention)  -/
/- ------------------------------------------------------------------ -/

/-- Heap for the pointer-level model: the set of live (allocated, not yet
freed) descriptor addresses, and whether undefined behaviour (use after
free or double free) has occurred. -/
structure PtrWorld where
  live : List Nat
  ub : Bool
deriving DecidableEq, Repr

/-- tracefs_dynevent_destroy: dereferences the descriptor (use after free if
it is not live); the kernel-side outcome is the ok parameter; a null
argument is rejected with an error. -/
def dynevent_destroy_ptr (ok : Bool) (p : Option Nat) (w : PtrWorld) : Bool × PtrWorld :=
  match p with
  | none => (true, w)
  | some a => if a ∈ w.live then (!ok, w) else (!ok, { w with ub := true })

/-- tracefs_dynevent_free: frees the descriptor memory; freeing null is a
no-op; freeing a non-live pointer is a double free. -/
def dynevent_free_ptr (p : Option Nat) (w : PtrWorld) : PtrWorld :=
  match p with
  | none => w
  | some a => if a ∈ w.live then { w with live := w.live.erase a }
              else { w with ub := true }

/-- cleanup_kprobe at the pointer level.  The C parameter is a by-value copy
of the caller's pointer; the final statement `kprobe_event = NULL;` writes
that local copy, so the caller's variable — returned in the middle
component — is unchanged by the call. -/
def cleanup_kprobe_ptr (ok : Bool) (kprobe_event : Option Nat) (w : PtrWorld) :
    Bool × Option Nat × PtrWorld :=
  let d := dynevent_destroy_ptr ok kprobe_event w
  let w2 := dynevent_free_ptr kprobe_event d.2
  let _kprobe_event : Option Nat := none
  (d.1, kprobe_event, w2)

/-- tracefs_instance_destroy at the pointer level: same dereference
discipline as the dynevent destroy. -/
def instance_destroy_ptr (ok : Bool) (p : Option Nat) (w : PtrWorld) : Bool × PtrWorld :=
  match p with
  | none => (true, w)
  | some a => if a ∈ w.live then (!ok, w) else (!ok, { w with ub := true })

/-- tracefs_instance_free at the pointer level. -/
def instance_free_ptr (p : Option Nat) (w : PtrWorld) : PtrWorld :=
  match p with
  | none => w
  | some a => if a ∈ w.live then { w with live := w.live.erase a }
              else { w with ub := true }

/-- cleanup_instance at the pointer level.  The parameter `inst` shadows the
global of the same name; the final `inst = NULL;` writes the by-value
parameter copy, so neither the caller's variable nor the global is nulled. -/
def cleanup_instance_ptr (ok : Bool) (inst : Option Nat) (w : PtrWorld) :
    Bool × Option Nat × PtrWorld :=
  let d := instance_destroy_ptr ok inst w
  let w2 := instance_free_ptr inst d.2
  let _inst : Option Nat := none
  (d.1, inst, w2)

/- Concrete environments used to evaluate the model. -/

/-- An environment in which every external call succeeds, the fresh instance
starts with one unrelated event enabled, no records arrive, and the
cancellation flag is already observed at the first loop-head check. -/
def envAllOk : Env :=
  { kretprobe_alloc_ok := true, instance_create_ok := true, dynevent_create_ok := true,
    event_disable_ok := true, event_enable_ok := true, trace_off1_ok := true,
    trace_on_ok := true, trace_off2_ok := true, instance_destroy_ok := true,
    dynevent_destroy_ok := true, tep_ok := true,
    initEnabled := [("sched", "sched_switch")], sigAt := 0, passes := [] }

/-- As envAllOk, but tracefs_dynevent_create (the probe install) fails. -/
def envInstallFail : Env := { envAllOk with dynevent_create_ok := false }

/-- As envAllOk, but the tep-handle creation at the start of the iteration
phase fails. -/
def envTepFail : Env := { envAllOk with tep_ok := false }

/-- As envAllOk, but the buffer-clearing step of turn_trace_on fails. -/
def envClearFail : Env := { envAllOk with trace_off1_ok := false }

/-- The event-filter invariant of a state: once the probe-enable call has
been issued, the enabled-event set is exactly the probe's event; and
whenever tracing is on, the enabled-event set is exactly the probe's event. -/
def probeOnly (s : Sys) : Prop :=
  (Action.enableEvent K_EVENT_SYS K_EVENT ∈ s.log →
    s.enabled = [(K_EVENT_SYS, K_EVENT)]) ∧
  (s.tracing = true → s.enabled = [(K_EVENT_SYS, K_EVENT)])

/-- A record whose filename field is missing. -/
def recMissingField : EventRec :=
  { hasField := false, filename := none, pid := none, seqMsg := "" }

/-- A well-formed record. -/
def recGoodA : EventRec :=
  { hasField := true, filename := some "/a", pid := some 1, seqMsg := "" }

/-- Another well-formed record. -/
def recGoodB : EventRec :=
  { hasField := true, filename := some "/b", pid := some 2, seqMsg := "" }

/- ------------------------------------------------------------------ -/
/- Theorems                                                            -/
/- ------------------------------------------------------------------ -/

/-- runPass distributes over list append: each record is handled
independently of the records around it. -/
theorem runPass_append (a b : List EventRec) :
    (runPass (a ++ b)).1 = (runPass a).1 ++ (runPass b).1 ∧
    (runPass (a ++ b)).2 = (runPass a).2 ++ (runPass b).2 := by
  induction a with
  | nil => simp [runPass]
  | cons x rest ih => simp [runPass, ih.1, ih.2]

/-- C1 (code bug): when the probe install (tracefs_dynevent_create) fails
after the descriptor allocation and the instance creation both succeeded,
main exits nonzero but performs no cleanup at all: the descriptor memory
and the instance memory are still allocated, the kernel-visible instance
still exists, and no uninstall, destroy or free call was ever issued —
contradicting the claim that every setup-phase failure triggers best-effort
cleanup of the resources that already exist. -/
theorem C1_install_failure_skips_cleanup :
    mainExit envInstallFail = 1 ∧
    (mainFinal envInstallFail).probeMem = true ∧
    (mainFinal envInstallFail).instMem = true ∧
    (mainFinal envInstallFail).instKernel = true ∧
    Action.uninstallProbe ∉ (mainFinal envInstallFail).log ∧
    Action.freeProbe ∉ (mainFinal envInstallFail).log ∧
    Action.destroyInstance ∉ (mainFinal envInstallFail).log ∧
    Action.freeInstance ∉ (mainFinal envInstallFail).log := by
  decide

/-- C3 (code bug): the teardown helpers free the memory unconditionally, but
the `= NULL` assignment in each writes only the by-value parameter copy, so
the caller's handle is not nulled; it dangles, and calling the same teardown
helper again on it is a double free / use after free, not a safe no-op. -/
theorem C3_teardown_handle_dangling :
    (cleanup_kprobe_ptr true (some 0) { live := [0], ub := false }).2.1 = some 0 ∧
    (cleanup_kprobe_ptr true (some 0) { live := [0], ub := false }).2.2.live = [] ∧
    (cleanup_kprobe_ptr true (some 0) { live := [0], ub := false }).2.2.ub = false ∧
    (cleanup_kprobe_ptr true (some 0)
      (cleanup_kprobe_ptr true (some 0) { live := [0], ub := false }).2.2).2.2.ub = true ∧
    (cleanup_instance_ptr true (some 1) { live := [1], ub := false }).2.1 = some 1 ∧
    (cleanup_instance_ptr true (some 1)
      (cleanup_instance_ptr true (some 1) { live := [1], ub := false }).2.2).2.2.ub = true := by
  decide

/-- C7 counterexample: the record with pid 1234 and filename /etc/passwd is
printed with the pid left-justified and no separating space —
"1234   /etc/passwd" — not the claimed right-justified "   1234 /etc/passwd". -/
theorem C7_counterexample :
    (callback { hasField := true, filename := some "/etc/passwd",
                pid := some 1234, seqMsg := "" }).out = ["1234   /etc/passwd\n"] ∧
    "1234   /etc/passwd\n" ≠ "   1234 /etc/passwd\n" := by
  decide

/-- C7 (amended): for every successfully decoded record the emitted line is
the decimal pid left-justified in a minimum field width of 7 (space-padded
on the right, since PID_SPACING is negative), immediately followed by the
filename with no separating space, terminated by a newline. -/
theorem C7_record_line_format (x : EventRec) (f : String) (pid : Nat)
    (h1 : x.hasField = true) (h2 : x.filename = some f) (h3 : x.pid = some pid) :
    (callback x).out =
      [toString pid ++ String.mk (List.replicate (7 - (toString pid).length) ' ') ++ f ++ "\n"] ∧
    (callback x).fail = false := by
  norm_num [callback, h1, h2, h3, fmtLine, fmtPid, padWidth, PID_SPACING]

/-- C7 witness: the amended format theorem instantiated at pid 1234 and
filename /etc/passwd yields the byte-exact line. -/
theorem C7_witness :
    (callback { hasField := true, filename := some "/etc/passwd",
                pid := some 1234, seqMsg := "x" }).out = ["1234   /etc/passwd\n"] ∧
    (callback { hasField := true, filename := some "/etc/passwd",
                pid := some 1234, seqMsg := "x" }).fail = false := by
  have h := C7_record_line_format
    { hasField := true, filename := some "/etc/passwd", pid := some 1234, seqMsg := "x" }
    "/etc/passwd" 1234 rfl rfl rfl
  exact ⟨by rw [h.1]; rfl, h.2⟩

/-- C9 counterexample: a run of two decodable records performs two
tep_find_any_field metadata lookups, so the field descriptor is not looked
up at most once per iteration run. -/
theorem C9_counterexample :
    passLookups [{ hasField := true, filename := some "/a", pid := some 1, seqMsg := "" },
                 { hasField := true, filename := some "/b", pid := some 2, seqMsg := "" }] = 2 ∧
    ¬ (passLookups [{ hasField := true, filename := some "/a", pid := some 1, seqMsg := "" },
                    { hasField := true, filename := some "/b", pid := some 2, seqMsg := "" }] ≤ 1) := by
  decide

/-- C9 (amended): the field descriptor is looked up afresh in every record
callback — tep_find_any_field runs once per record, with no memoization
across records, so a run over n records performs exactly n metadata scans. -/
theorem C9_lookup_per_record (recs : List EventRec) :
    passLookups recs = recs.length := by
  induction recs with
  | nil => simp [passLookups]
  | cons x rest ih =>
    have hx : (callback x).fieldLookups = 1 := by
      obtain ⟨hf, fn, pd, sq⟩ := x
      cases hf <;> cases fn <;> cases pd <;> simp [callback]
    simp only [passLookups, List.map_cons, List.sum_cons, List.length_cons, hx] at ih ⊢
    omega

/-- C5: turn_trace_on issues the buffer-clearing call first and the
trace-enable call only after the clear succeeded; when the clearing step
fails the function reports failure, the tracing state is untouched, and no
trace-on call is ever issued. -/
theorem C5_clear_precedes_trace_on (env : Env) (r : Run) :
    ((turn_trace_on env r).2.s.log =
      r.s.log ++ (if env.trace_off1_ok then [Action.traceOff, Action.traceOn]
                  else [Action.traceOff])) ∧
    (env.trace_off1_ok = false →
      (turn_trace_on env r).1 = true ∧
      (turn_trace_on env r).2.s.tracing = r.s.tracing) := by
  cases h1 : env.trace_off1_ok <;> cases h2 : env.trace_on_ok <;>
    simp [turn_trace_on, h1, h2, step, op_trace_off, op_trace_on, eprint, logAct]

/-- C5 witness: with the clearing step failing, only the clear call was
issued, the function failed, and tracing stayed off. -/
theorem C5_witness :
    ((turn_trace_on envClearFail initRun).2.s.log =
      initRun.s.log ++ [Action.traceOff]) ∧
    (turn_trace_on envClearFail initRun).1 = true ∧
    (turn_trace_on envClearFail initRun).2.s.tracing = initRun.s.tracing := by
  have h := C5_clear_precedes_trace_on envClearFail initRun
  have h2 := h.2 rfl
  exact ⟨by rw [h.1]; rfl, h2.1, h2.2⟩

/-- C6: a record whose filename decode fails (missing field or malformed
value) produces exactly one diagnostic on the error channel, contributes no
output line, returns EXIT_FAILURE, and every other record of its pass is
decoded exactly as it would have been without it: the pass results are the
concatenation of the surrounding records' results, so iteration continues. -/
theorem C6_decode_failure_isolated (x : EventRec)
    (hx : x.hasField = false ∨ x.filename = none) :
    (callback x).errs.length = 1 ∧ (callback x).out = [] ∧ (callback x).fail = true ∧
    ∀ p1 p2 : List EventRec,
      (runPass (p1 ++ x :: p2)).1 = (runPass p1).1 ++ (runPass p2).1 ∧
      (runPass (p1 ++ x :: p2)).2 =
        (runPass p1).2 ++ (callback x).errs ++ (runPass p2).2 := by
  have hc : (callback x).errs.length = 1 ∧ (callback x).out = [] ∧
      (callback x).fail = true := by
    rcases hx with h | h
    · simp [callback, h]
    · cases hf : x.hasField <;> simp [callback, h, hf]
  refine ⟨hc.1, hc.2.1, hc.2.2, ?_⟩
  intro p1 p2
  have ha := runPass_append p1 (x :: p2)
  constructor
  · rw [ha.1]; simp [runPass, hc.2.1]
  · rw [ha.2]; simp [runPass, List.append_assoc]

/-- C6 witness: a record with the filename field missing, between two valid
records, yields one diagnostic, no line of its own, and both neighbours
decoded. -/
theorem C6_witness :
    (callback recMissingField).errs.length = 1 ∧
    (callback recMissingField).out = [] ∧
    (callback recMissingField).fail = true ∧
    ((runPass ([recGoodA] ++ recMissingField :: [recGoodB])).1 =
       (runPass [recGoodA]).1 ++ (runPass [recGoodB]).1 ∧
     (runPass ([recGoodA] ++ recMissingField :: [recGoodB])).2 =
       (runPass [recGoodA]).2 ++ (callback recMissingField).errs ++
         (runPass [recGoodB]).2) := by
  have h := C6_decode_failure_isolated recMissingField (Or.inl rfl)
  exact ⟨h.1, h.2.1, h.2.2.1, h.2.2.2 [recGoodA] [recGoodB]⟩

/-- The polling loop runs exactly the passes whose loop-head check still saw
the cancellation flag true: outputs come only from the first sigAt passes,
and the number of passes started is min sigAt (number of scheduled passes). -/
theorem runIter_take (sigAt : Nat) (passes : List (List EventRec)) :
    (runIter sigAt passes).1 = ((passes.take sigAt).map (fun p => (runPass p).1)).flatten ∧
    (runIter sigAt passes).2.2 = min sigAt passes.length := by
  induction passes generalizing sigAt with
  | nil => cases sigAt <;> simp [runIter]
  | cons p rest ih =>
    cases sigAt with
    | zero => simp [runIter]
    | succ n =>
      have h := ih n
      simp [runIter, h.1, h.2, Nat.succ_min_succ]

/-- C2: both teardown steps always run — every call to cleanup issues the
instance destroy and free followed by the probe uninstall and free,
regardless of either step's outcome — their failures are combined by
logical OR into the returned status, and the process exit code is 0 exactly
when every setup step and both teardown destroys succeed, 1 otherwise. -/
theorem C2_teardown_both_run_and_exit_code :
    (∀ (env : Env) (r : Run),
      (cleanup env r).2.s.log = r.s.log ++
        [Action.destroyInstance, Action.freeInstance,
         Action.uninstallProbe, Action.freeProbe] ∧
      (cleanup env r).1 = (!env.instance_destroy_ok || !env.dynevent_destroy_ok)) ∧
    (∀ env : Env,
      mainExit env =
        if env.kretprobe_alloc_ok && env.instance_create_ok && env.dynevent_create_ok &&
           env.event_disable_ok && env.event_enable_ok && env.trace_off1_ok &&
           env.trace_on_ok && env.trace_off2_ok && env.instance_destroy_ok &&
           env.dynevent_destroy_ok
        then 0 else 1) := by
  constructor
  · intro env r
    cases h1 : env.instance_destroy_ok <;> cases h2 : env.dynevent_destroy_ok <;>
      simp [cleanup, cleanup_instance, cleanup_kprobe, step, op_instance_destroy,
            op_instance_free, op_dynevent_destroy, op_dynevent_free, eprint, logAct,
            h1, h2]
  · intro env
    obtain ⟨a, b, c, d, e, f, g, h, i, j, t, ie, sg, ps⟩ := env
    cases a <;> cases b <;> cases c <;> cases d <;> cases e <;> cases f <;> cases g <;>
      cases h <;> cases i <;> cases j <;> cases t <;> rfl

set_option maxHeartbeats 2000000 in
/-- C4: under a successful event-filter reset and probe-event enable, every
state of the whole run satisfies the event-filter invariant: once the
probe-enable call has been issued the enabled-event set is exactly the
probe's event, and whenever tracing is on the enabled-event set is exactly
the probe's event — no other event is ever enabled while tracing is active,
regardless of which events the fresh instance started with. -/
theorem C4_enabled_set_exactly_probe (env : Env)
    (hd : env.event_disable_ok = true) (he : env.event_enable_ok = true) :
    ∀ s ∈ mainTrace env, probeOnly s := by
  obtain ⟨a, b, c, d, e, f, g, h, i, j, t, ie, sg, ps⟩ := env
  subst hd he
  cases a
  · simp [mainTrace, mainRun, probeOnly, step, initRun, initSys, op_alloc, eprint, logAct]
  · cases b
    · cases j <;>
        simp [mainTrace, mainRun, probeOnly, enable_necessary_events, enable_event,
              cleanup_kprobe, step, initRun, initSys, op_alloc, op_instance_create,
              op_dynevent_destroy, op_dynevent_free, eprint, logAct,
              List.forall_mem_append]
    · cases c
      · simp [mainTrace, mainRun, probeOnly, step, initRun, initSys, op_alloc,
              op_instance_create, op_dynevent_create, eprint, logAct]
      · cases f <;> cases g <;> cases t <;> cases h <;> cases i <;> cases j <;>
          simp [mainTrace, mainRun, probeOnly, enable_necessary_events, enable_event,
                turn_trace_on, cleanup, cleanup_instance, cleanup_kprobe,
                read_event_data, step, initRun, initSys, op_alloc, op_instance_create,
                op_dynevent_create, op_event_disable_all, op_event_enable,
                op_trace_off, op_trace_on, op_dynevent_destroy, op_dynevent_free,
                op_instance_destroy, op_instance_free, eprint, pout, logAct,
                List.insert, List.forall_mem_append]

/-- C4 witness: in the environment where everything succeeds and the fresh
instance started with an unrelated event enabled, the final state of the
run satisfies the event-filter invariant. -/
theorem C4_witness : probeOnly (mainFinal envAllOk) :=
  C4_enabled_set_exactly_probe envAllOk rfl rfl (mainFinal envAllOk) (by decide)

/-- C10: when the tep-handle creation fails at the start of the iteration
phase while every other external call succeeds, the run prints no record
line (only the prompt and the header), never starts an iteration pass,
still performs the normal teardown (both destroys are issued), and exits 0. -/
theorem C10_tep_failure_graceful (env : Env)
    (ht : env.tep_ok = false)
    (h1 : env.kretprobe_alloc_ok = true) (h2 : env.instance_create_ok = true)
    (h3 : env.dynevent_create_ok = true) (h4 : env.event_disable_ok = true)
    (h5 : env.event_enable_ok = true) (h6 : env.trace_off1_ok = true)
    (h7 : env.trace_on_ok = true) (h8 : env.trace_off2_ok = true)
    (h9 : env.instance_destroy_ok = true) (h10 : env.dynevent_destroy_ok = true) :
    mainExit env = 0 ∧
    (mainFinal env).out = [promptLine, headerLine] ∧
    Action.iterate ∉ (mainFinal env).log ∧
    Action.destroyInstance ∈ (mainFinal env).log ∧
    Action.uninstallProbe ∈ (mainFinal env).log := by
  obtain ⟨a, b, c, d, e, f, g, h, i, j, t, ie, sg, ps⟩ := env
  subst ht h1 h2 h3 h4 h5 h6 h7 h8 h9 h10
  simp [mainExit, mainFinal, mainRun, enable_necessary_events, enable_event,
        turn_trace_on, cleanup, cleanup_instance, cleanup_kprobe, read_event_data,
        step, initRun, initSys, op_alloc, op_instance_create, op_dynevent_create,
        op_event_disable_all, op_event_enable, op_trace_off, op_trace_on,
        op_dynevent_destroy, op_dynevent_free, op_instance_destroy, op_instance_free,
        eprint, pout, logAct]

/-- C10 witness: the tep-failure environment with everything else
succeeding exits 0 with only the prompt and header printed and a full
teardown. -/
theorem C10_witness :
    mainExit envTepFail = 0 ∧
    (mainFinal envTepFail).out = [promptLine, headerLine] ∧
    Action.iterate ∉ (mainFinal envTepFail).log ∧
    Action.destroyInstance ∈ (mainFinal envTepFail).log ∧
    Action.uninstallProbe ∈ (mainFinal envTepFail).log :=
  C10_tep_failure_graceful envTepFail rfl rfl rfl rfl rfl rfl rfl rfl rfl rfl rfl

/-- C8: the signal handler only clears the cancellation flag and requests
the unblock of the in-flight pull; once the flag is observed at a loop-head
check no further polling pass begins — every output line of the run comes
from a pass begun before the observation, the pass in flight completes, and
the number of passes started is capped at the observation point. -/
theorem C8_cancellation_stops_loop (sigAt : Nat) (passes : List (List EventRec)) :
    (∀ c : IterCtl, (stop_iter c).iter_events = false ∧
      (stop_iter c).stop_requested = true) ∧
    (runIter sigAt passes).1 = ((passes.take sigAt).map (fun p => (runPass p).1)).flatten ∧
    (runIter sigAt passes).2.2 = min sigAt passes.length :=
  ⟨fun _ => ⟨rfl, rfl⟩, (runIter_take sigAt passes).1, (runIter_take sigAt passes).2⟩

end OpensnoopModel
